import Mathlib

/-!
Verification of the SAPient MCP session core (`robosapiens_mcp/session.py`)
and the relevant tool handlers (`robosapiens_mcp/server.py`).

The Python code is shallowly embedded: the session aggregate becomes an
explicit record, the external RoboSAPiens automation library becomes a
table of named operations that either return a value or fail with an
exception message, and Python exceptions become `Except` values.  The
string primitives used by the source (`str.lower`, `str.replace`,
substring membership, `str.join`, `str.split`, `textwrap.dedent`,
`base64.b64encode`) are implemented structurally over `List Char` so that
every definition evaluates by kernel reduction.
-/

namespace SAPient

/-! ### String primitives mirroring the Python operations used by the source -/

/-- Python `str.lower()` (ASCII case folding, which is all the source uses). -/
def pyLower (s : String) : String := String.mk (s.data.map Char.toLower)

/-- Python `str.replace(" ", "_")`: the source only replaces the single
character `' '`, so this is a character map. -/
def replaceSpaceByUnderscore (s : String) : String :=
  String.mk (s.data.map fun c => if c = ' ' then '_' else c)

/-- `pat` is a leading segment of `l`. -/
def isLeadOf : List Char → List Char → Bool
  | [], _ => true
  | _ :: _, [] => false
  | a :: as, b :: bs => a == b && isLeadOf as bs

/-- `pat` occurs as a contiguous run inside `l` (Python `pat in l`). -/
def containsSub : List Char → List Char → Bool
  | _, [] => true
  | [], _ :: _ => false
  | c :: t, pat => isLeadOf pat (c :: t) || containsSub t pat

/-- Python `pat in s` on strings. -/
def strContains (s pat : String) : Bool := containsSub s.data pat.data

/-- Python `text.split("\n")`. -/
def splitNL : List Char → List (List Char)
  | [] => [[]]
  | c :: cs =>
    if c = '\n' then [] :: splitNL cs
    else
      match splitNL cs with
      | [] => [[c]]
      | l :: ls => (c :: l) :: ls

def pySplitLines (s : String) : List String := (splitNL s.data).map String.mk

/-- Whitespace in the sense of `textwrap.dedent`'s margin regexes. -/
def isWSChar (c : Char) : Bool := c == ' ' || c == '\t'

/-- Longest common leading segment of two character lists. -/
def sharedStart : List Char → List Char → List Char
  | a :: as, b :: bs => if a = b then a :: sharedStart as bs else []
  | _, _ => []

/-- Leading whitespace of one line. -/
def lineIndent (l : String) : List Char := l.data.takeWhile isWSChar

/-- A line with at least one non-whitespace character. -/
def hasContent (l : String) : Bool := !(l.data.all isWSChar)

/-- Python `textwrap.dedent`: whitespace-only lines are normalised to empty
lines; the margin is the longest common leading-whitespace run over the
remaining lines; the margin is stripped from every line that starts with it. -/
def dedent (text : String) : String :=
  let lines := (pySplitLines text).map (fun l => if l.data.all isWSChar then "" else l)
  let indents := (lines.filter hasContent).map lineIndent
  let margin : List Char :=
    match indents with
    | [] => []
    | i :: is => is.foldl sharedStart i
  let strip := fun (l : String) =>
    if isLeadOf margin l.data then String.mk (l.data.drop margin.length) else l
  String.intercalate "\n" (lines.map strip)

/-- `base64.b64encode` over bytes given as naturals `< 256`. -/
def base64Table : String :=
  "ABCDEFGHIJKLMNOPQRSTUVWXYZabcdefghijklmnopqrstuvwxyz0123456789+/"

def b64c (n : Nat) : Char := base64Table.data.getD n '='

def base64Encode : List Nat → String
  | [] => ""
  | [b1] => String.mk [b64c (b1 / 4), b64c (b1 % 4 * 16), '=', '=']
  | [b1, b2] => String.mk [b64c (b1 / 4), b64c (b1 % 4 * 16 + b2 / 16), b64c (b2 % 16 * 4), '=']
  | b1 :: b2 :: b3 :: rest =>
    String.mk [b64c (b1 / 4), b64c (b1 % 4 * 16 + b2 / 16),
               b64c (b2 % 16 * 4 + b3 / 64), b64c (b3 % 64)] ++ base64Encode rest

/-! ### Data model (`session.py`) -/

/-- `SessionState` enum. -/
inductive SessionState
  | DISCONNECTED
  | SAP_OPEN
  | CONNECTED
  | LOGGED_IN
deriving DecidableEq, Repr

/-- `SAPError`: structured failure carrying message, hint and the
originating keyword (Python defaults: empty hint, empty keyword). -/
structure SAPError where
  message : String
  hint : String := ""
  keyword : String := ""
deriving DecidableEq, Repr

/-- The external RoboSAPiens automation library, opaque to the core: a table
from (snake_case) method name to an operation over positional string
arguments.  `getattr(lib, name, None)` becomes the `Option` lookup; a method
either returns a value of type `α` or raises an exception carrying a
message string. -/
structure RoboSAPiens (α : Type) where
  methods : String → Option (List String → Except String α)

/-- The mutable fields of `SAPSessionManager` relevant to the claims. -/
structure Session (α : Type) where
  lib : Option (RoboSAPiens α)
  state : SessionState
  server_description : Option String
  output_dir : String
  script_lines : List String

/-! ### Hint classifier (`_extract_hint`) -/

def notFoundHint : String :=
  "Element not found. Check: (1) spelling of the label, (2) the correct tab is active, (3) call sap_get_window_title to confirm you are on the right screen."

def scriptingHint : String :=
  "SAP GUI scripting is not enabled. Enable it in SAP Logon → Customize Local Layout (Alt+F12) → Options → Scripting, AND ask BASIS to set sapgui/user_scripting=TRUE via RZ11."

def connectionHint : String :=
  "Connection failed. Check: (1) SAP Logon is open, (2) the server description matches exactly what appears in SAP Logon list, (3) network connectivity to SAP."

def loginHint : String :=
  "Login failed. Verify credentials. Check for password expiry or account lock."

/-- `_extract_hint` from `session.py`: parse common error messages into
actionable hints, testing substrings of the lower-cased message in order. -/
def extract_hint (error_msg : String) : String :=
  let msg := pyLower error_msg
  if strContains msg "not found" then notFoundHint
  else if strContains msg "scripting" then scriptingHint
  else if strContains msg "connection" || strContains msg "server" then connectionHint
  else if strContains msg "password" || strContains msg "login" then loginHint
  else ""

/-- The Hint Classifier as described by spec §4.3, for the refinement claim:
ordered substring rules over the lower-cased message, first match wins,
else the empty hint. -/
def hintClassifierSpec (message : String) : String :=
  let msg := pyLower message
  if strContains msg "not found" then notFoundHint
  else if strContains msg "scripting" then scriptingHint
  else if strContains msg "connection" then connectionHint
  else if strContains msg "server" then connectionHint
  else if strContains msg "password" then loginHint
  else if strContains msg "login" then loginHint
  else ""

/-! ### Library access and the core executor -/

def importError : SAPError :=
  { message := "RoboSAPiens library not found"
    hint := "Run: pip install robotframework-robosapiens"
    keyword := "import" }

/-- `_get_lib`: lazily obtain the RoboSAPiens library instance.  `avail`
models whether `from RoboSAPiens import RoboSAPiens` succeeds in this
process and, when it does, which instance `RoboSAPiens()` constructs. -/
def get_lib {α : Type} (avail : Option (RoboSAPiens α)) (s : Session α) :
    Except SAPError (RoboSAPiens α) × Session α :=
  match s.lib with
  | some l => (.ok l, s)
  | none =>
    match avail with
    | some l => (.ok l, { s with lib := some l })
    | none => (.error importError, s)

/-- Keyword normalisation used by `execute`: lower-case, spaces to
underscores. -/
def normalizeKeyword (keyword : String) : String :=
  replaceSpaceByUnderscore (pyLower keyword)

def unknownKeywordError (keyword : String) : SAPError :=
  { message := "Unknown RoboSAPiens keyword: '" ++ keyword ++ "'"
    hint := "No method '" ++ normalizeKeyword keyword ++ "' on RoboSAPiens library."
    keyword := keyword }

/-- `SAPSessionManager.execute`: resolve the keyword to a method on the
library, invoke it, and normalise every failure into a `SAPError`.  The
session component of the result records the (possibly lazily created)
library handle. -/
def execute {α : Type} (avail : Option (RoboSAPiens α)) (s : Session α)
    (keyword : String) (args : List String) : Except SAPError α × Session α :=
  match (get_lib avail s).1 with
  | .error e => (.error e, (get_lib avail s).2)
  | .ok lib =>
    match lib.methods (normalizeKeyword keyword) with
    | none => (.error (unknownKeywordError keyword), (get_lib avail s).2)
    | some m =>
      match m args with
      | .ok r => (.ok r, (get_lib avail s).2)
      | .error emsg =>
        (.error { message := emsg, hint := extract_hint emsg, keyword := keyword },
         (get_lib avail s).2)

/-! ### State helpers and guards -/

def set_state {α : Type} (s : Session α) (st : SessionState) : Session α :=
  { s with state := st }

def is_connected {α : Type} (s : Session α) : Bool :=
  s.state == SessionState.CONNECTED || s.state == SessionState.LOGGED_IN

def is_logged_in {α : Type} (s : Session α) : Bool :=
  s.state == SessionState.LOGGED_IN

def notConnectedError : SAPError :=
  { message := "No active SAP connection"
    hint := "Call sap_open → sap_connect_to_server (or sap_connect_to_running) first." }

def notLoggedInError : SAPError :=
  { message := "Not logged in to SAP"
    hint := "Complete login with sap_fill_text_field / sap_push_button, then the session auto-detects login." }

/-- `require_connected`: a pure read of the state that raises unless
connected or logged in. -/
def require_connected {α : Type} (s : Session α) : Except SAPError Unit :=
  if is_connected s then .ok () else .error notConnectedError

/-- `require_logged_in`: a pure read of the state that raises unless
logged in. -/
def require_logged_in {α : Type} (s : Session α) : Except SAPError Unit :=
  if is_logged_in s then .ok () else .error notLoggedInError

/-! ### Script recorder (code generation) -/

/-- The single line appended by `record`: the keyword and its arguments
joined by four spaces, indented four spaces; the argument block is omitted
when the joined argument string is empty (Python truthiness of `arg_str`). -/
def renderLine (keyword : String) (args : List String) : String :=
  let arg_str := String.intercalate "    " args
  if arg_str = "" then "    " ++ keyword
  else "    " ++ keyword ++ "    " ++ arg_str

/-- `SAPSessionManager.record`. -/
def record {α : Type} (s : Session α) (keyword : String) (args : List String) : Session α :=
  { s with script_lines := s.script_lines ++ [renderLine keyword args] }

def noActionsPlaceholder : String := "# No actions recorded yet."

/-- The f-string of `get_script` before `textwrap.dedent`: the template
lines carry the source's 12-space indentation, the `body` interpolation
site is preceded by 12 spaces, and the closing quotes contribute a final
8-space line. -/
def scriptRaw (body : String) : String :=
  "            *** Settings ***\n" ++
  "            Library    RoboSAPiens\n" ++
  "\n" ++
  "            *** Test Cases ***\n" ++
  "            Generated SAP Automation\n" ++
  "            " ++ body ++ "\n" ++
  "        "

/-- `SAPSessionManager.get_script`. -/
def get_script {α : Type} (s : Session α) : String :=
  if s.script_lines.isEmpty then noActionsPlaceholder
  else dedent (scriptRaw (String.intercalate "\n" s.script_lines))

/-- `SAPSessionManager.clear_script`. -/
def clear_script {α : Type} (s : Session α) : Session α :=
  { s with script_lines := [] }

/-! ### Screenshot capturer -/

/-- The path `self._output_dir / f"{label}_{ts}.png"`. -/
def screenshotFname {α : Type} (s : Session α) (label ts : String) : String :=
  s.output_dir ++ "/" ++ label ++ "_" ++ ts ++ ".png"

/-- `SAPSessionManager.take_screenshot`.  `fs` models `Path.read_bytes`
(`none` when the read raises or the file was never written); `ts` models
`datetime.now().strftime("%Y%m%d_%H%M%S")`.  Every failure is caught and
becomes `none`. -/
def take_screenshot {α : Type} (avail : Option (RoboSAPiens α))
    (fs : String → Option (List Nat)) (ts : String)
    (s : Session α) (label : String) : Option String × Session α :=
  match (execute avail s "Save Screenshot" [screenshotFname s label ts]).1 with
  | .error _ => (none, (execute avail s "Save Screenshot" [screenshotFname s label ts]).2)
  | .ok _ =>
    match fs (screenshotFname s label ts) with
    | none => (none, (execute avail s "Save Screenshot" [screenshotFname s label ts]).2)
    | some bytes =>
      (some (base64Encode bytes),
       (execute avail s "Save Screenshot" [screenshotFname s label ts]).2)

/-! ### Tool handlers (`server.py`) -/

/-- `_err`: format a `SAPError` as the rich text tool response. -/
def errText (e : SAPError) (screenshot_b64 : Option String) : String :=
  let parts := ["ERROR: " ++ e.message]
    ++ (if e.keyword ≠ "" then ["Keyword: " ++ e.keyword] else [])
    ++ (if e.hint ≠ "" then ["Hint: " ++ e.hint] else [])
    ++ (if screenshot_b64.isSome then ["[Screenshot captured — see image content below]"] else [])
  String.intercalate "\n" parts

/-- Python `title or "(empty title)"` where `title` may be `None` or a
string: falsy (absent or empty) values select the default. -/
def pyOr (t : Option String) (dflt : String) : String :=
  match t with
  | none => dflt
  | some v => if v = "" then dflt else v

/-- `sap_get_window_title` tool: no state guard; executes the keyword and
substitutes `"(empty title)"` for a falsy title; a `SAPError` becomes the
formatted error text (no screenshot). -/
def sap_get_window_title (avail : Option (RoboSAPiens (Option String)))
    (s : Session (Option String)) : String × Session (Option String) :=
  match (execute avail s "Get Window Title" []).1 with
  | .ok title => (pyOr title "(empty title)", (execute avail s "Get Window Title" []).2)
  | .error e => (errText e none, (execute avail s "Get Window Title" []).2)

def passwordLabels : List String := ["password", "passwort", "kennwort"]

/-- `sap_fill_text_field` tool: guard `require_connected` (raising out of
the handler on violation, hence the outer `Except`), execute the keyword,
and on success record the action with the value replaced by `"***"` when
the lower-cased label is password-like; on execution failure optionally
capture a screenshot and return the formatted error text. -/
def sap_fill_text_field {α : Type} (avail : Option (RoboSAPiens α))
    (fs : String → Option (List Nat)) (ts : String)
    (cap_codegen screenshot_on_error : Bool)
    (s : Session α) (label value : String) :
    Except SAPError (String × Session α) :=
  match require_connected s with
  | .error e => .error e
  | .ok _ =>
    match (execute avail s "Fill Text Field" [label, value]).1 with
    | .ok _ =>
      let s1 := (execute avail s "Fill Text Field" [label, value]).2
      let record_value := if passwordLabels.contains (pyLower label) then "***" else value
      let s2 := if cap_codegen then record s1 "Fill Text Field" [label, record_value] else s1
      .ok ("Field '" ++ label ++ "' filled.", s2)
    | .error e =>
      let s1 := (execute avail s "Fill Text Field" [label, value]).2
      let ssres := if screenshot_on_error then take_screenshot avail fs ts s1 "fill_error"
                   else (none, s1)
      .ok (errText e ssres.1, ssres.2)

/-! ### Concrete fixtures used by witnesses and counterexamples -/

/-- A fresh session in a given state, before any command ran. -/
def freshSession (α : Type) (st : SessionState) : Session α :=
  { lib := none
    state := st
    server_description := none
    output_dir := "./sap_output"
    script_lines := [] }

/-- A library exposing no method at all. -/
def emptyLib (α : Type) : RoboSAPiens α :=
  { methods := fun _ => none }

/-- A one-method library: `name` maps to the constant operation `op`. -/
def oneMethodLib (α : Type) (name : String) (op : List String → Except String α) :
    RoboSAPiens α :=
  { methods := fun n => if n = name then some op else none }

/-- Fixture: a library whose `ping` raises an element-not-found message. -/
def pingFailLib : RoboSAPiens String :=
  oneMethodLib String "ping" (fun _ => .error "element not found on screen")

def pingFailSession : Session String :=
  { freshSession String SessionState.LOGGED_IN with lib := some pingFailLib }

/-- Fixture: a library whose `ping` returns `"pong"`. -/
def pingOkLib : RoboSAPiens String :=
  oneMethodLib String "ping" (fun _ => .ok "pong")

def pingOkSession : Session String :=
  { freshSession String SessionState.LOGGED_IN with lib := some pingOkLib }

/-- Fixture: a library whose `save_screenshot` succeeds. -/
def shotOkLib : RoboSAPiens Unit :=
  oneMethodLib Unit "save_screenshot" (fun _ => .ok ())

def shotOkSession : Session Unit :=
  { freshSession Unit SessionState.LOGGED_IN with lib := some shotOkLib }

/-- Fixture: a library whose `save_screenshot` raises. -/
def shotFailLib : RoboSAPiens Unit :=
  oneMethodLib Unit "save_screenshot" (fun _ => .error "screenshot failed")

def shotFailSession : Session Unit :=
  { freshSession Unit SessionState.LOGGED_IN with lib := some shotFailLib }

/-- Fixture: a three-byte file at every path. -/
def manFS : String → Option (List Nat) := fun _ => some [77, 97, 110]

/-- Fixture: a library whose `fill_text_field` succeeds. -/
def fillOkLib : RoboSAPiens Unit :=
  oneMethodLib Unit "fill_text_field" (fun _ => .ok ())

def fillOkSession : Session Unit :=
  { freshSession Unit SessionState.CONNECTED with lib := some fillOkLib }

/-- Fixture: a library whose `get_window_title` returns a title. -/
def titleLib : RoboSAPiens (Option String) :=
  oneMethodLib (Option String) "get_window_title" (fun _ => .ok (some "SAP Easy Access"))

def titleSession : Session (Option String) :=
  { freshSession (Option String) SessionState.DISCONNECTED with lib := some titleLib }

/-- Fixture: a library whose `get_window_title` returns `None`. -/
def noneTitleLib : RoboSAPiens (Option String) :=
  oneMethodLib (Option String) "get_window_title" (fun _ => .ok none)

def noneTitleSession : Session (Option String) :=
  { freshSession (Option String) SessionState.DISCONNECTED with lib := some noneTitleLib }

/-- The script text produced after recording exactly
`Fill Text Field    User    bob` into an empty buffer. -/
def demoScript : String :=
  "*** Settings ***\nLibrary    RoboSAPiens\n\n*** Test Cases ***\nGenerated SAP Automation\n    Fill Text Field    User    bob\n"

/-! ### Shared lemmas -/

set_option maxRecDepth 200000

/-- The session returned by `execute` is exactly the session returned by
`get_lib`, whatever the keyword, the arguments, or the outcome. -/
theorem execute_snd_eq_get_lib_snd {α : Type} (avail : Option (RoboSAPiens α))
    (s : Session α) (keyword : String) (args : List String) :
    (execute avail s keyword args).2 = (get_lib avail s).2 := by
  unfold execute
  cases hg : (get_lib avail s).1 with
  | error e => rfl
  | ok lib =>
    dsimp only
    cases hm : lib.methods (normalizeKeyword keyword) with
    | none => rfl
    | some m =>
      dsimp only
      cases m args <;> rfl

/-! ### Claim theorems -/

/-- C2: the hint classifier is a pure function of the error text that
lower-cases the message and applies the substring rules in the spec's
fixed priority order with first match winning; a message containing both
"not found" and "password" gets the not-found hint, "Scripting is
disabled" gets the scripting hint, and an unrelated message gets the
empty hint. -/
theorem extract_hint_matches_spec_priority :
    (∀ message, extract_hint message = hintClassifierSpec message) ∧
    extract_hint "Password not found" = notFoundHint ∧
    strContains (pyLower "Password not found") "password" = true ∧
    strContains (pyLower "Password not found") "not found" = true ∧
    notFoundHint ≠ loginHint ∧
    extract_hint "Scripting is disabled" = scriptingHint ∧
    extract_hint "everything is fine here" = "" := by
  refine ⟨?_, by decide, by decide, by decide, by decide, by decide, by decide⟩
  intro message
  simp only [extract_hint, hintClassifierSpec]
  cases strContains (pyLower message) "not found" <;>
    cases strContains (pyLower message) "scripting" <;>
    cases strContains (pyLower message) "connection" <;>
    cases strContains (pyLower message) "server" <;>
    cases strContains (pyLower message) "password" <;>
    cases strContains (pyLower message) "login" <;> rfl

/-- C6: recording `Fill Text Field`/`User`/`bob` into an empty buffer makes
`get_script` return the fixed settings/test-case template containing a line
with "Fill Text Field" and "bob"; an empty buffer yields the literal
placeholder; and after `clear_script` the buffer is empty, `get_script`
yields the placeholder again, and a subsequent `record` behaves exactly as
on a never-used buffer. -/
theorem script_recorder_behaviour :
    get_script (record (freshSession Unit SessionState.LOGGED_IN) "Fill Text Field"
      ["User", "bob"]) = demoScript ∧
    strContains demoScript "Fill Text Field" = true ∧
    strContains demoScript "bob" = true ∧
    strContains demoScript "    Fill Text Field    User    bob" = true ∧
    strContains demoScript "*** Settings ***" = true ∧
    strContains demoScript "*** Test Cases ***" = true ∧
    get_script (freshSession Unit SessionState.LOGGED_IN) = noActionsPlaceholder ∧
    (∀ (α : Type) (s : Session α),
      (clear_script s).script_lines = ([] : List String) ∧
      get_script (clear_script s) = noActionsPlaceholder ∧
      (∀ keyword args,
        get_script (record (clear_script s) keyword args) =
          get_script (record (freshSession α s.state) keyword args))) := by
  refine ⟨by decide, by decide, by decide, by decide, by decide, by decide, by decide, ?_⟩
  intro α s
  exact ⟨rfl, rfl, fun keyword args => rfl⟩

/-- C9: the state setter is total (it succeeds for every target state, no
exception channel exists in its type), sets exactly the requested state,
and is idempotent: setting the same state twice — in particular `LOGGED_IN`
twice in a row — is observationally equal to setting it once. -/
theorem set_state_idempotent :
    ∀ (α : Type) (s : Session α) (st : SessionState),
      set_state (set_state s st) st = set_state s st ∧
      (set_state s st).state = st ∧
      set_state (set_state s SessionState.LOGGED_IN) SessionState.LOGGED_IN =
        set_state s SessionState.LOGGED_IN ∧
      (set_state (set_state s SessionState.LOGGED_IN) SessionState.LOGGED_IN).state =
        SessionState.LOGGED_IN := by
  intro α s st
  exact ⟨rfl, rfl, rfl, rfl⟩

/-- Dispatch behaviour of `execute` once the library and the method have
resolved: a raising operation becomes the classified `SAPError` with the
original keyword, a returning operation's result passes through. -/
theorem execute_dispatch {α : Type}
    (avail : Option (RoboSAPiens α)) (s : Session α)
    (keyword : String) (args : List String) (lib : RoboSAPiens α)
    (m : List String → Except String α)
    (hlib : (get_lib avail s).1 = .ok lib)
    (hm : lib.methods (normalizeKeyword keyword) = some m) :
    (∀ emsg, m args = .error emsg →
        (execute avail s keyword args).1 =
          .error { message := emsg, hint := extract_hint emsg, keyword := keyword }) ∧
    (∀ r, m args = .ok r → (execute avail s keyword args).1 = .ok r) := by
  constructor
  · intro emsg he
    unfold execute
    rw [hlib]
    dsimp only
    rw [hm]
    dsimp only
    rw [he]
  · intro r hr
    unfold execute
    rw [hlib]
    dsimp only
    rw [hm]
    dsimp only
    rw [hr]

/-- C1: when the resolved operation raises, `execute` raises a `SAPError`
whose message is the original exception text, whose hint is the hint
classifier applied to that text, and whose keyword is the original
un-normalised command name; when the operation returns, `execute` returns
its result unchanged. -/
theorem execute_propagates_result_and_error {α : Type}
    (avail : Option (RoboSAPiens α)) (s : Session α)
    (keyword : String) (args : List String) (lib : RoboSAPiens α)
    (m : List String → Except String α)
    (hlib : (get_lib avail s).1 = .ok lib)
    (hm : lib.methods (normalizeKeyword keyword) = some m) :
    (∀ emsg, m args = .error emsg →
        (execute avail s keyword args).1 =
          .error { message := emsg, hint := extract_hint emsg, keyword := keyword }) ∧
    (∀ r, m args = .ok r → (execute avail s keyword args).1 = .ok r) :=
  execute_dispatch avail s keyword args lib m hlib hm

/-- Witness for C1: a failing `ping` yields the classified error with the
original keyword, a succeeding `ping` returns its result unchanged. -/
theorem execute_propagates_result_and_error_witness :
    (execute (some pingFailLib) pingFailSession "Ping" []).1 =
      .error { message := "element not found on screen",
               hint := extract_hint "element not found on screen",
               keyword := "Ping" } ∧
    (execute (some pingOkLib) pingOkSession "Ping" []).1 = .ok "pong" := by
  constructor
  · exact (execute_propagates_result_and_error (some pingFailLib) pingFailSession "Ping" []
      pingFailLib (fun _ => .error "element not found on screen") rfl rfl).1
      "element not found on screen" rfl
  · exact (execute_propagates_result_and_error (some pingOkLib) pingOkSession "Ping" []
      pingOkLib (fun _ => .ok "pong") rfl rfl).2 "pong" rfl

/-- C4 counterexample: for the unknown keyword "Foo Bar" the raised error's
message is not the literal "Unknown keyword" and its hint is not exactly
the normalised method name. -/
theorem unknown_keyword_literal_counterexample :
    (execute (some (emptyLib Unit)) (freshSession Unit SessionState.LOGGED_IN) "Foo Bar" []).1 =
      .error { message := "Unknown RoboSAPiens keyword: 'Foo Bar'",
               hint := "No method 'foo_bar' on RoboSAPiens library.",
               keyword := "Foo Bar" } ∧
    "Unknown RoboSAPiens keyword: 'Foo Bar'" ≠ "Unknown keyword" ∧
    "No method 'foo_bar' on RoboSAPiens library." ≠ "foo_bar" := by
  exact ⟨rfl, by decide, by decide⟩

/-- C4 amended: the command name is normalised by lower-casing and
replacing spaces with underscores (`"Fill Text Field"` resolves to
`fill_text_field`); when no operation of that name exists the raised error
is total (never an uncaught exception) with message
`Unknown RoboSAPiens keyword: '<original>'`, a hint citing the normalised
method name, and the original keyword. -/
theorem unknown_keyword_error_shape {α : Type}
    (avail : Option (RoboSAPiens α)) (s : Session α) (keyword : String)
    (args : List String) (lib : RoboSAPiens α)
    (hlib : (get_lib avail s).1 = .ok lib)
    (hm : lib.methods (normalizeKeyword keyword) = none) :
    (execute avail s keyword args).1 =
      .error { message := "Unknown RoboSAPiens keyword: '" ++ keyword ++ "'",
               hint := "No method '" ++ normalizeKeyword keyword ++ "' on RoboSAPiens library.",
               keyword := keyword } ∧
    normalizeKeyword keyword = replaceSpaceByUnderscore (pyLower keyword) ∧
    normalizeKeyword "Fill Text Field" = "fill_text_field" := by
  refine ⟨?_, rfl, by decide⟩
  unfold execute
  rw [hlib]
  dsimp only
  rw [hm]
  rfl

/-- Witness for C4's amended claim at a concrete unknown keyword. -/
theorem unknown_keyword_error_shape_witness :
    (execute (some (emptyLib Unit)) (freshSession Unit SessionState.LOGGED_IN) "Read Text" []).1 =
      .error { message := "Unknown RoboSAPiens keyword: '" ++ "Read Text" ++ "'",
               hint := "No method '" ++ normalizeKeyword "Read Text" ++ "' on RoboSAPiens library.",
               keyword := "Read Text" } :=
  (unknown_keyword_error_shape (some (emptyLib Unit))
    (freshSession Unit SessionState.LOGGED_IN) "Read Text" [] (emptyLib Unit) rfl rfl).1

/-- C5: the library handle is created lazily on first use and never
recreated — once `lib` is non-absent every `execute` keeps and uses that
same handle; a first use with the library importable installs the handle;
and when the library is not importable `execute` fails with the distinct
error that carries the installation hint, leaving the session (and in
particular the absent handle) unchanged. -/
theorem lib_created_once_and_reused :
    (∀ (α : Type) (avail : Option (RoboSAPiens α)) (s : Session α)
        (keyword : String) (args : List String) (l : RoboSAPiens α),
        s.lib = some l →
        get_lib avail s = (.ok l, s) ∧
        (execute avail s keyword args).2.lib = some l) ∧
    (∀ (α : Type) (s : Session α)
        (keyword : String) (args : List String) (l : RoboSAPiens α),
        s.lib = none →
        (execute (some l) s keyword args).2.lib = some l) ∧
    (∀ (α : Type) (s : Session α) (keyword : String) (args : List String),
        s.lib = none →
        (execute (none : Option (RoboSAPiens α)) s keyword args).1 = .error importError ∧
        (execute (none : Option (RoboSAPiens α)) s keyword args).2 = s) ∧
    importError.hint = "Run: pip install robotframework-robosapiens" ∧
    importError.message ≠ notConnectedError.message ∧
    importError.message ≠ notLoggedInError.message := by
  refine ⟨?_, ?_, ?_, by decide, by decide, by decide⟩
  · intro α avail s keyword args l h
    have hg : get_lib avail s = (.ok l, s) := by
      unfold get_lib
      rw [h]
    refine ⟨hg, ?_⟩
    rw [execute_snd_eq_get_lib_snd, hg]
    exact h
  · intro α s keyword args l h
    have hg : get_lib (some l) s = (.ok l, { s with lib := some l }) := by
      unfold get_lib
      rw [h]
    rw [execute_snd_eq_get_lib_snd, hg]
  · intro α s keyword args h
    have hg : get_lib (none : Option (RoboSAPiens α)) s = (.error importError, s) := by
      unfold get_lib
      rw [h]
    constructor
    · unfold execute
      rw [hg]
    · rw [execute_snd_eq_get_lib_snd, hg]

/-- Witness for C5: reuse of an installed handle, installation on first
use, and the import failure, all at concrete sessions. -/
theorem lib_created_once_and_reused_witness :
    get_lib (some pingOkLib) pingOkSession = (.ok pingOkLib, pingOkSession) ∧
    (execute (some pingOkLib) pingOkSession "Ping" []).2.lib = some pingOkLib ∧
    (execute (some pingOkLib) (freshSession String SessionState.DISCONNECTED) "Ping" []).2.lib =
      some pingOkLib ∧
    (execute (none : Option (RoboSAPiens Unit)) (freshSession Unit SessionState.DISCONNECTED)
      "Ping" []).1 = .error importError := by
  refine ⟨?_, ?_, ?_, ?_⟩
  · exact ((lib_created_once_and_reused.1) String (some pingOkLib) pingOkSession "Ping" []
      pingOkLib rfl).1
  · exact ((lib_created_once_and_reused.1) String (some pingOkLib) pingOkSession "Ping" []
      pingOkLib rfl).2
  · exact (lib_created_once_and_reused.2.1) String
      (freshSession String SessionState.DISCONNECTED) "Ping" [] pingOkLib rfl
  · exact ((lib_created_once_and_reused.2.2.1) Unit
      (freshSession Unit SessionState.DISCONNECTED) "Ping" [] rfl).1

/-- C3 counterexample: at state `DISCONNECTED`, `require_connected` raises
the error with message "No active SAP connection", but its hint is not the
literal "open then connect first". -/
theorem require_connected_hint_counterexample :
    require_connected (freshSession Unit SessionState.DISCONNECTED) =
      .error notConnectedError ∧
    notConnectedError.message = "No active SAP connection" ∧
    notConnectedError.hint ≠ "open then connect first" := by
  exact ⟨rfl, rfl, by decide⟩

/-- C3 amended: `require_connected` raises the error with message
"No active SAP connection" and hint "Call sap_open → sap_connect_to_server
(or sap_connect_to_running) first." exactly when the state is neither
`CONNECTED` nor `LOGGED_IN`; `require_logged_in` raises the
"Not logged in to SAP" error exactly when the state is not `LOGGED_IN`.
Both guards are pure reads: in this embedding they consume the session and
return only a verdict, so no session field can change. -/
theorem guards_raise_iff_state :
    ∀ (α : Type) (s : Session α),
      (require_connected s = .error notConnectedError ↔
        (s.state ≠ SessionState.CONNECTED ∧ s.state ≠ SessionState.LOGGED_IN)) ∧
      (require_connected s = .ok () ↔
        (s.state = SessionState.CONNECTED ∨ s.state = SessionState.LOGGED_IN)) ∧
      (require_logged_in s = .error notLoggedInError ↔ s.state ≠ SessionState.LOGGED_IN) ∧
      (require_logged_in s = .ok () ↔ s.state = SessionState.LOGGED_IN) := by
  intro α s
  obtain ⟨lib, st, sd, od, sl⟩ := s
  cases st <;>
    simp [require_connected, require_logged_in, is_connected, is_logged_in,
      notConnectedError, notLoggedInError]

/-- Witness for C3's amended claim at concrete states. -/
theorem guards_raise_iff_state_witness :
    require_connected (freshSession Unit SessionState.DISCONNECTED) = .error notConnectedError ∧
    require_connected (freshSession Unit SessionState.CONNECTED) = .ok () ∧
    require_logged_in (freshSession Unit SessionState.CONNECTED) = .error notLoggedInError ∧
    require_logged_in (freshSession Unit SessionState.LOGGED_IN) = .ok () := by
  refine ⟨?_, ?_, ?_, ?_⟩
  · exact ((guards_raise_iff_state Unit
      (freshSession Unit SessionState.DISCONNECTED)).1).mpr (by decide)
  · exact ((guards_raise_iff_state Unit
      (freshSession Unit SessionState.CONNECTED)).2.1).mpr (Or.inl rfl)
  · exact ((guards_raise_iff_state Unit
      (freshSession Unit SessionState.CONNECTED)).2.2.1).mpr (by decide)
  · exact ((guards_raise_iff_state Unit
      (freshSession Unit SessionState.LOGGED_IN)).2.2.2).mpr rfl

/-- C7: `take_screenshot` is total over an explicit failure model, so it
never raises: a failing save operation yields `none`, a failing file
read-back yields `none`, and when both steps succeed the result is the
file's bytes base64-encoded, the file path being
`{output_dir}/{label}_{timestamp}.png`. -/
theorem take_screenshot_total_and_best_effort :
    (∀ (α : Type) (s : Session α) (label ts : String),
      screenshotFname s label ts = s.output_dir ++ "/" ++ label ++ "_" ++ ts ++ ".png") ∧
    (∀ (α : Type) (avail : Option (RoboSAPiens α)) (fs : String → Option (List Nat))
        (ts : String) (s : Session α) (label : String) (e : SAPError),
      (execute avail s "Save Screenshot" [screenshotFname s label ts]).1 = .error e →
      (take_screenshot avail fs ts s label).1 = none) ∧
    (∀ (α : Type) (avail : Option (RoboSAPiens α)) (fs : String → Option (List Nat))
        (ts : String) (s : Session α) (label : String) (r : α),
      (execute avail s "Save Screenshot" [screenshotFname s label ts]).1 = .ok r →
      fs (screenshotFname s label ts) = none →
      (take_screenshot avail fs ts s label).1 = none) ∧
    (∀ (α : Type) (avail : Option (RoboSAPiens α)) (fs : String → Option (List Nat))
        (ts : String) (s : Session α) (label : String) (r : α) (bytes : List Nat),
      (execute avail s "Save Screenshot" [screenshotFname s label ts]).1 = .ok r →
      fs (screenshotFname s label ts) = some bytes →
      (take_screenshot avail fs ts s label).1 = some (base64Encode bytes)) := by
  refine ⟨fun α s label ts => rfl, ?_, ?_, ?_⟩
  · intro α avail fs ts s label e h
    unfold take_screenshot
    rw [h]
  · intro α avail fs ts s label r h hf
    unfold take_screenshot
    rw [h]
    dsimp only
    rw [hf]
  · intro α avail fs ts s label r bytes h hf
    unfold take_screenshot
    rw [h]
    dsimp only
    rw [hf]

/-- Witness for C7: a failing save, a failing read-back, and a successful
capture of the bytes of "Man" (base64 `TWFu`). -/
theorem take_screenshot_total_and_best_effort_witness :
    (take_screenshot (some shotFailLib) manFS "20240101_120000" shotFailSession "error").1 =
      none ∧
    (take_screenshot (some shotOkLib) (fun _ => none) "20240101_120000" shotOkSession
      "error").1 = none ∧
    (take_screenshot (some shotOkLib) manFS "20240101_120000" shotOkSession "shot").1 =
      some (base64Encode [77, 97, 110]) ∧
    base64Encode [77, 97, 110] = "TWFu" := by
  refine ⟨?_, ?_, ?_, by decide⟩
  · exact take_screenshot_total_and_best_effort.2.1 Unit (some shotFailLib) manFS
      "20240101_120000" shotFailSession "error"
      { message := "screenshot failed", hint := extract_hint "screenshot failed",
        keyword := "Save Screenshot" } rfl
  · exact take_screenshot_total_and_best_effort.2.2.1 Unit (some shotOkLib) (fun _ => none)
      "20240101_120000" shotOkSession "error" () rfl rfl
  · exact take_screenshot_total_and_best_effort.2.2.2 Unit (some shotOkLib) manFS
      "20240101_120000" shotOkSession "shot" () [77, 97, 110] rfl rfl

/-- Helper for C8: the exact successful result of the fill-text-field tool
with recording enabled. -/
theorem fill_success_shape {α : Type} (avail : Option (RoboSAPiens α))
    (fs : String → Option (List Nat)) (ts : String) (so : Bool)
    (s : Session α) (label value : String) (r : α)
    (hc : require_connected s = .ok ())
    (he : (execute avail s "Fill Text Field" [label, value]).1 = .ok r) :
    sap_fill_text_field avail fs ts true so s label value =
      .ok ("Field '" ++ label ++ "' filled.",
        record (execute avail s "Fill Text Field" [label, value]).2 "Fill Text Field"
          [label, if passwordLabels.contains (pyLower label) then "***" else value]) := by
  unfold sap_fill_text_field
  rw [hc]
  dsimp only
  rw [he]
  rfl

/-- C8: with codegen recording enabled, a successful fill-text-field tool
call records the fixed placeholder `***` whenever the lower-cased label is
password-like (`password`, `passwort`, `kennwort`) and the raw value
otherwise; two successful runs differing only in the value supplied under
a password-like label produce identical results (the secret never reaches
the script); and the recorder itself performs no redaction, appending its
arguments verbatim. -/
theorem fill_value_redacted_before_recording :
    (∀ (α : Type) (avail : Option (RoboSAPiens α)) (fs : String → Option (List Nat))
        (ts : String) (so : Bool) (s : Session α) (label value : String) (r : α),
      require_connected s = .ok () →
      (execute avail s "Fill Text Field" [label, value]).1 = .ok r →
      sap_fill_text_field avail fs ts true so s label value =
        .ok ("Field '" ++ label ++ "' filled.",
          record (execute avail s "Fill Text Field" [label, value]).2 "Fill Text Field"
            [label, if passwordLabels.contains (pyLower label) then "***" else value])) ∧
    (∀ (α : Type) (avail : Option (RoboSAPiens α)) (fs : String → Option (List Nat))
        (ts : String) (so : Bool) (s : Session α) (label value1 value2 : String) (r1 r2 : α),
      passwordLabels.contains (pyLower label) = true →
      require_connected s = .ok () →
      (execute avail s "Fill Text Field" [label, value1]).1 = .ok r1 →
      (execute avail s "Fill Text Field" [label, value2]).1 = .ok r2 →
      sap_fill_text_field avail fs ts true so s label value1 =
        sap_fill_text_field avail fs ts true so s label value2) ∧
    (∀ (α : Type) (s : Session α) (keyword : String) (args : List String),
      (record s keyword args).script_lines = s.script_lines ++ [renderLine keyword args]) ∧
    passwordLabels.contains (pyLower "Password") = true := by
  refine ⟨?_, ?_, fun α s keyword args => rfl, by decide⟩
  · intro α avail fs ts so s label value r hc he
    exact fill_success_shape avail fs ts so s label value r hc he
  · intro α avail fs ts so s label value1 value2 r1 r2 hp hc h1 h2
    rw [fill_success_shape avail fs ts so s label value1 r1 hc h1,
        fill_success_shape avail fs ts so s label value2 r2 hc h2]
    rw [execute_snd_eq_get_lib_snd avail s "Fill Text Field" [label, value1],
        execute_snd_eq_get_lib_snd avail s "Fill Text Field" [label, value2]]
    rw [hp]
    rfl

/-- Witness for C8: two concrete secrets under the label "Password" give
the same tool result, and that result records the placeholder. -/
theorem fill_value_redacted_before_recording_witness :
    sap_fill_text_field (some fillOkLib) manFS "20240101_120000" true true fillOkSession
      "Password" "hunter2" =
      sap_fill_text_field (some fillOkLib) manFS "20240101_120000" true true fillOkSession
        "Password" "s3cr3t!" ∧
    sap_fill_text_field (some fillOkLib) manFS "20240101_120000" true true fillOkSession
      "Password" "hunter2" =
      .ok ("Field 'Password' filled.",
        record (execute (some fillOkLib) fillOkSession "Fill Text Field"
          ["Password", "hunter2"]).2 "Fill Text Field" ["Password", "***"]) := by
  constructor
  · exact fill_value_redacted_before_recording.2.1 Unit (some fillOkLib) manFS
      "20240101_120000" true fillOkSession "Password" "hunter2" "s3cr3t!" () ()
      (by decide) rfl rfl rfl
  · exact fill_value_redacted_before_recording.1 Unit (some fillOkLib) manFS
      "20240101_120000" true fillOkSession "Password" "hunter2" () rfl rfl

/-- C10: the `sap_get_window_title` tool performs no state-guard check: for
every session — every state, `DISCONNECTED` included — it reaches the
capability's `get_window_title` operation, its output determined entirely
by that operation's outcome; a falsy (absent or empty) title becomes the
literal "(empty title)", and an operation failure becomes the formatted
error text, never a guard rejection. -/
theorem get_window_title_unguarded :
    ∀ (s : Session (Option String)) (avail : Option (RoboSAPiens (Option String)))
      (lib : RoboSAPiens (Option String)) (m : List String → Except String (Option String)),
      s.lib = some lib →
      lib.methods "get_window_title" = some m →
      (∀ t, m [] = .ok t → (sap_get_window_title avail s).1 = pyOr t "(empty title)") ∧
      (m [] = .ok none → (sap_get_window_title avail s).1 = "(empty title)") ∧
      (m [] = .ok (some "") → (sap_get_window_title avail s).1 = "(empty title)") ∧
      (∀ emsg, m [] = .error emsg →
        (sap_get_window_title avail s).1 =
          errText { message := emsg, hint := extract_hint emsg,
                    keyword := "Get Window Title" } none) := by
  intro s avail lib m hs hm
  have hg : (get_lib avail s).1 = .ok lib := by
    unfold get_lib
    rw [hs]
  have hE := execute_dispatch avail s "Get Window Title" [] lib m hg hm
  have hok : ∀ t, m [] = .ok t → (sap_get_window_title avail s).1 = pyOr t "(empty title)" := by
    intro t ht
    unfold sap_get_window_title
    rw [hE.2 t ht]
  refine ⟨hok, fun h => hok none h, fun h => hok (some "") h, ?_⟩
  intro emsg he
  unfold sap_get_window_title
  rw [hE.1 emsg he]

/-- Witness for C10: with the session still `DISCONNECTED`, the tool
returns the capability's title, and a `None` title becomes
"(empty title)". -/
theorem get_window_title_unguarded_witness :
    (sap_get_window_title (some titleLib) titleSession).1 = "SAP Easy Access" ∧
    (sap_get_window_title (some noneTitleLib) noneTitleSession).1 = "(empty title)" ∧
    titleSession.state = SessionState.DISCONNECTED ∧
    noneTitleSession.state = SessionState.DISCONNECTED := by
  refine ⟨?_, ?_, rfl, rfl⟩
  · exact (get_window_title_unguarded titleSession (some titleLib) titleLib
      (fun _ => .ok (some "SAP Easy Access")) rfl rfl).1 (some "SAP Easy Access") rfl
  · exact (get_window_title_unguarded noneTitleSession (some noneTitleLib) noneTitleLib
      (fun _ => .ok none) rfl rfl).2.1 rfl

end SAPient
